import Mathlib

/-!
Shallow embedding of the scanner core of the `easm-rnd` repository:
the rule evaluation engine (`src/backend/apps/scanner/engine.py`),
the Mongo-backed repositories (`src/backend/apps/scanner/models.py`)
and the connection adapter (`src/backend/apps/scanner/db.py`).

Documents are modelled as string-keyed association lists of dynamically
typed values; MongoDB ObjectIds are modelled as natural numbers (the
decimal rendering stands in for the hex rendering: both are injective,
which is all the code relies on).  Timestamp stamping
(`created_at`/`updated_at`) is not modelled: the core logic never reads
the timestamps back.
-/

set_option autoImplicit false

namespace Scanner

/-- A dynamically typed document value: Python `None`, `bool`, `int`,
`str`, `list`, plus BSON `ObjectId` (modelled by a `Nat`).  Python and
BSON floats are not given their own constructor; numeric strings and
ints cover the numeric comparisons the engine performs (parsing is done
into `Rat`). -/
inductive Value where
  | none : Value
  | bool : Bool → Value
  | int : Int → Value
  | str : String → Value
  | list : List Value → Value
  | oid : Nat → Value

mutual

/-- Structural (BSON) equality test on document values. -/
def Value.beq : Value → Value → Bool
  | Value.none, Value.none => true
  | Value.bool a, Value.bool b => a == b
  | Value.int a, Value.int b => a == b
  | Value.str a, Value.str b => a == b
  | Value.oid a, Value.oid b => a == b
  | Value.list xs, Value.list ys => Value.beqList xs ys
  | _, _ => false

/-- Elementwise structural equality on value lists. -/
def Value.beqList : List Value → List Value → Bool
  | [], [] => true
  | x :: xs, y :: ys => Value.beq x y && Value.beqList xs ys
  | _, _ => false

end

mutual

theorem Value.beq_iff : ∀ (a b : Value), Value.beq a b = true ↔ a = b
  | Value.list xs, Value.list ys => by
      simpa [Value.beq] using Value.beqList_iff xs ys
  | Value.none, b => by cases b <;> simp [Value.beq]
  | Value.bool a, b => by cases b <;> simp [Value.beq]
  | Value.int a, b => by cases b <;> simp [Value.beq]
  | Value.str a, b => by cases b <;> simp [Value.beq]
  | Value.oid a, b => by cases b <;> simp [Value.beq]
  | Value.list xs, Value.none => by simp [Value.beq]
  | Value.list xs, Value.bool b => by simp [Value.beq]
  | Value.list xs, Value.int b => by simp [Value.beq]
  | Value.list xs, Value.str b => by simp [Value.beq]
  | Value.list xs, Value.oid b => by simp [Value.beq]

theorem Value.beqList_iff : ∀ (xs ys : List Value), Value.beqList xs ys = true ↔ xs = ys
  | [], [] => by simp [Value.beqList]
  | [], _ :: _ => by simp [Value.beqList]
  | _ :: _, [] => by simp [Value.beqList]
  | x :: xs, y :: ys => by
      simp [Value.beqList, Value.beq_iff x y, Value.beqList_iff xs ys]

end

instance : DecidableEq Value := fun a b => decidable_of_iff _ (Value.beq_iff a b)

/-- A document: an ordered string-keyed association list (Python dict /
BSON document; BSON keys are always strings). -/
abbrev Doc : Type := List (String × Value)

/-- `d.get(k)` for a string key: the stored value, or Python `None` when
the key is absent (so an absent key and a stored null are conflated,
exactly as `dict.get` conflates them). -/
def getS (d : Doc) (k : String) : Value :=
  match List.lookup k d with
  | some v => v
  | Option.none => Value.none

/-- `d.get(k, default)`: the stored value (even when it is null), or the
default only when the key is absent. -/
def getD (d : Doc) (k : String) (dflt : Value) : Value :=
  match List.lookup k d with
  | some v => v
  | Option.none => dflt

/-- `resource.get(field)` where `field` is itself a dynamic value
(`rule.get('field')`).  BSON documents are string-keyed, so a non-string
key can never be present and yields `None`. -/
def resourceGet (d : Doc) (field : Value) : Value :=
  match field with
  | Value.str s => getS d s
  | _ => Value.none

/-- Python truthiness (`bool(v)`) on document values. -/
def truthy : Value → Bool
  | Value.none => false
  | Value.bool b => b
  | Value.int n => n ≠ 0
  | Value.str s => s ≠ ""
  | Value.list l => !l.isEmpty
  | Value.oid _ => true

mutual

/-- Python `repr` of a document value, modelling the subset the engine
can meet: strings are rendered in single quotes (escape sequences inside
strings are not modelled), lists render their elements by `repr`. -/
def pyRepr : Value → String
  | Value.none => "None"
  | Value.bool true => "True"
  | Value.bool false => "False"
  | Value.int n => toString n
  | Value.str s => String.singleton (Char.ofNat 39) ++ s ++ String.singleton (Char.ofNat 39)
  | Value.list l => "[" ++ String.intercalate ", " (pyReprList l) ++ "]"
  | Value.oid n => toString n

/-- `repr` of each element of a value list. -/
def pyReprList : List Value → List String
  | [] => []
  | v :: vs => pyRepr v :: pyReprList vs

end

/-- Python `str` of a document value: like `repr` except that a
top-level string is rendered verbatim.  `str(ObjectId)` renders the id
(decimal stands in for hex). -/
def pyStr : Value → String
  | Value.str s => s
  | v => pyRepr v

/-- Python `==` on document values: numeric equality across `bool` and
`int` (`True == 1`), structural equality elsewhere, lists elementwise. -/
def pyEq : Value → Value → Bool
  | Value.none, Value.none => true
  | Value.bool a, Value.bool b => a == b
  | Value.bool a, Value.int m => (if a then (1 : Int) else 0) == m
  | Value.int n, Value.bool b => n == (if b then (1 : Int) else 0)
  | Value.int n, Value.int m => n == m
  | Value.str a, Value.str b => a == b
  | Value.oid a, Value.oid b => a == b
  | Value.list a, Value.list b => pyEqList a b
  | _, _ => false
where
  /-- Elementwise Python `==` on lists. -/
  pyEqList : List Value → List Value → Bool
    | [], [] => true
    | x :: xs, y :: ys => pyEq x y && pyEqList xs ys
    | _, _ => false

/-- Fold a digit run into a natural number. -/
def digitsToNat (cs : List Char) : Nat :=
  cs.foldl (fun a c => a * 10 + (c.toNat - 48)) 0

/-- Strip leading and trailing whitespace from a character list
(`float()` ignores surrounding whitespace). -/
def stripChars (cs : List Char) : List Char :=
  ((cs.dropWhile Char.isWhitespace).reverse.dropWhile Char.isWhitespace).reverse

/-- Python `float(s)` on a string, modelling the subset the rule values
use: optional surrounding whitespace, optional sign, digits with an
optional fractional part (exponents and `inf`/`nan` are not modelled —
they parse to `none`, i.e. are treated like any other parse failure). -/
def pyFloatStr (s : String) : Option Rat :=
  let cs := stripChars s.toList
  let signed : Int × List Char :=
    match cs with
    | '-' :: rest => (-1, rest)
    | '+' :: rest => (1, rest)
    | _ => (1, cs)
  let sign := signed.1
  let body := signed.2
  let intPart := body.takeWhile Char.isDigit
  let rest := body.dropWhile Char.isDigit
  match rest with
  | [] =>
    if intPart.isEmpty then Option.none
    else some ((sign : Rat) * (digitsToNat intPart : Rat))
  | '.' :: frac =>
    if frac.all Char.isDigit && !(intPart.isEmpty && frac.isEmpty) then
      some ((sign : Rat) *
        ((digitsToNat intPart : Rat) + (digitsToNat frac : Rat) / ((10 : Rat) ^ frac.length)))
    else Option.none
  | _ => Option.none

/-- Python `float(v)` on a document value: `TypeError` on `None` and
lists (caught by the engine as "no match"), `bool` and `int` convert
exactly, strings parse via `pyFloatStr`. -/
def pyFloat : Value → Option Rat
  | Value.none => Option.none
  | Value.bool b => some (if b then 1 else 0)
  | Value.int n => some (n : Rat)
  | Value.str s => pyFloatStr s
  | Value.list _ => Option.none
  | Value.oid _ => Option.none

/-- Case-insensitive substring test: `str(expected).lower() in
str(actual).lower()`. -/
def containsCI (haystack needle : String) : Bool :=
  decide (needle.toLower.toList <:+: haystack.toLower.toList)

/-- Operator dispatch of `ScanEngine.evaluate_rule` (the `if op ==
'eq': ... elif ...` chain, reached only when the actual value is not
`None`).  Every failure path — numeric parse failure on the ordering
operators, a non-list expected value on the membership operators, an
operator outside the enumeration — yields `false`. -/
def evalOp (op actual expected : Value) : Bool :=
  if op = Value.str "eq" then pyStr actual == pyStr expected
  else if op = Value.str "neq" then pyStr actual != pyStr expected
  else if op = Value.str "gt" then
    match pyFloat actual, pyFloat expected with
    | some a, some e => a > e
    | _, _ => false
  else if op = Value.str "lt" then
    match pyFloat actual, pyFloat expected with
    | some a, some e => a < e
    | _, _ => false
  else if op = Value.str "gte" then
    match pyFloat actual, pyFloat expected with
    | some a, some e => a ≥ e
    | _, _ => false
  else if op = Value.str "lte" then
    match pyFloat actual, pyFloat expected with
    | some a, some e => a ≤ e
    | _, _ => false
  else if op = Value.str "contains" then containsCI (pyStr actual) (pyStr expected)
  else if op = Value.str "not_contains" then !containsCI (pyStr actual) (pyStr expected)
  else if op = Value.str "in" then
    match expected with
    | Value.list l => l.any (fun e => pyEq e actual)
    | _ => false
  else if op = Value.str "not_in" then
    match expected with
    | Value.list l => !l.any (fun e => pyEq e actual)
    | _ => false
  else false

/-- `ScanEngine.evaluate_rule(resource, rule)`: extract
`rule.get('field') / rule.get('op') / rule.get('value')`, read the
actual value off the resource, return `false` immediately when it is
`None` (absent field or stored null), otherwise dispatch on the
operator. -/
def evaluate_rule (resource rule : Doc) : Bool :=
  let field := getS rule "field"
  let op := getS rule "op"
  let expected_value := getS rule "value"
  let actual_value := resourceGet resource field
  if actual_value = Value.none then false
  else evalOp op actual_value expected_value

/-- Lexicographic comparison of character lists by code point. -/
def charListCmp : List Char → List Char → Ordering
  | [], [] => Ordering.eq
  | [], _ :: _ => Ordering.lt
  | _ :: _, [] => Ordering.gt
  | c :: cs, d :: ds =>
    match compare c.toNat d.toNat with
    | Ordering.eq => charListCmp cs ds
    | o => o

/-- String comparison by code points (MongoDB compares UTF-8 strings
bytewise; on the values the scanner meets this coincides). -/
def strCmp (a b : String) : Ordering :=
  charListCmp a.toList b.toList

/-- BSON type rank for cross-type sorting: Null < Numbers < String <
Array < ObjectId < Boolean.  A missing sort field sorts like null. -/
def bsonRank : Value → Nat
  | Value.none => 0
  | Value.int _ => 1
  | Value.str _ => 2
  | Value.list _ => 3
  | Value.oid _ => 4
  | Value.bool _ => 5

mutual

/-- BSON comparison of two document values: by type rank across types,
by value within a type, arrays lexicographically. -/
def bsonCmp : Value → Value → Ordering
  | Value.int a, Value.int b => compare a b
  | Value.str a, Value.str b => strCmp a b
  | Value.list a, Value.list b => bsonCmpList a b
  | Value.oid a, Value.oid b => compare a b
  | Value.bool a, Value.bool b => compare (cond a 1 0 : Nat) (cond b 1 0)
  | a, b => compare (bsonRank a) (bsonRank b)

/-- Lexicographic BSON comparison of value lists. -/
def bsonCmpList : List Value → List Value → Ordering
  | [], [] => Ordering.eq
  | [], _ :: _ => Ordering.lt
  | _ :: _, [] => Ordering.gt
  | x :: xs, y :: ys =>
    match bsonCmp x y with
    | Ordering.eq => bsonCmpList xs ys
    | o => o

end

/-- The sort relation used by `find_all`: compare the documents' values
at the sort field, ascending when `direction = 1` (the source computes
`1 if sort_order == 'asc' else -1`), descending otherwise. -/
def sortLeDoc (sort_by : String) (direction : Int) (a b : Doc) : Prop :=
  if direction = 1 then bsonCmp (getS a sort_by) (getS b sort_by) ≠ Ordering.gt
  else bsonCmp (getS a sort_by) (getS b sort_by) ≠ Ordering.lt

instance (sort_by : String) (direction : Int) : DecidableRel (sortLeDoc sort_by direction) :=
  fun a b => by unfold sortLeDoc; infer_instance

/-- `BaseMongoModel.to_dict`: copy of the document with its `_id`
rendered as a string. -/
def to_dict (d : Doc) : Doc :=
  d.map (fun kv => if kv.1 = "_id" then (kv.1, Value.str (pyStr kv.2)) else kv)

/-- MongoDB equality-filter matching: every key of the query must equal
the document's value at that key (a query value of null also matches a
missing field, which `getS` reproduces). Operator filters other than
the `$regex` search handled separately in `find_all` are not modelled —
no caller of the core builds them. -/
def matchesFilter (query : Doc) (d : Doc) : Bool :=
  query.all (fun kv => getS d kv.1 == kv.2)

/-- The three scanner collections plus the ObjectId generator state
(`nextId` models the store generating fresh ids on insert). -/
structure DB where
  resources : List Doc
  rules : List Doc
  findings : List Doc
  nextId : Nat
deriving DecidableEq

/-- Errors of the repository layer: `unavailable` models the
`RuntimeError("MongoDB is not available...")` that
`BaseMongoModel.get_collection` raises when `get_mongodb()` returns
`None`; `invalidId` models `bson.errors.InvalidId` from `ObjectId(...)`
on a malformed id string. -/
inductive StoreError where
  | unavailable
  | invalidId
deriving DecidableEq

/-- `BaseMongoModel.get_collection`: fails with the store-unavailable
error when the adapter handle is `None`, otherwise hands back the live
database state (each operation then reads its own named collection off
it). -/
def get_collection (store : Option DB) : Except StoreError DB :=
  match store with
  | Option.none => Except.error StoreError.unavailable
  | some db => Except.ok db

/-- `ObjectId(s)`: parse an id string (decimal stands in for hex),
failing with `invalidId` on malformed input. -/
def parseOid (s : String) : Except StoreError Nat :=
  match s.toNat? with
  | some n => Except.ok n
  | Option.none => Except.error StoreError.invalidId

/-- `insert_one` tagging: the stored document with its freshly
generated `_id`. -/
def withId (n : Nat) (data : Doc) : Doc :=
  ("_id", Value.oid n) :: data

/-- `$set` of a single field: overwrite in place, or append when the
key is new. -/
def setKey (d : Doc) (k : String) (v : Value) : Doc :=
  if d.any (fun kv => kv.1 == k) then
    d.map (fun kv => if kv.1 = k then (kv.1, v) else kv)
  else d ++ [(k, v)]

/-- `update_one`'s `$set` payload: partial merge of the update fields
into the document. -/
def applySet (d : Doc) (update : Doc) : Doc :=
  update.foldl (fun acc kv => setKey acc kv.1 kv.2) d

/-- Result shape of `Resource.find_all`. -/
structure FindAllResult where
  data : List Doc
  total : Nat
  page_size : Nat
  page_number : Nat
deriving DecidableEq

/-- The query built by `Resource.find_all`: the structured filter, with
the `name` condition replaced by a case-insensitive substring search
when `search_str` is given (modelling the unanchored `$regex` with
`$options: 'i'`). -/
def resourceQuery (filter : Doc) (search : Option String) (d : Doc) : Bool :=
  match search with
  | Option.none => matchesFilter filter d
  | some s =>
      matchesFilter (filter.filter (fun kv => kv.1 != "name")) d &&
      containsCI (pyStr (getS d "name")) s

/-- `Resource.find_all` on the collection contents: filter, sort by the
sort field (BSON order), paginate with `skip`/`limit` (a limit of `0`
means no limit, as in MongoDB; the source would raise
`ZeroDivisionError` computing `page_number` there, a path no caller
takes — the model computes `skip / 0 + 1 = 1` instead), and report the
total count matching the query independent of the page window. -/
def Resource_find_all_core (resources : List Doc) (filter : Doc) (skip limit : Nat)
    (sort_by : String) (sort_order : String) (search : Option String) : FindAllResult :=
  let matching := resources.filter (resourceQuery filter search)
  let direction : Int := if sort_order = "asc" then 1 else -1
  let sorted := List.insertionSort (sortLeDoc sort_by direction) matching
  let page := if limit = 0 then sorted.drop skip else (sorted.drop skip).take limit
  { data := page.map to_dict
    total := matching.length
    page_size := limit
    page_number := skip / limit + 1 }

/-- `Resource.create`. -/
def Resource_create (store : Option DB) (data : Doc) : Except StoreError (DB × Doc) := do
  let db ← get_collection store
  let doc := withId db.nextId data
  Except.ok ({ db with resources := db.resources ++ [doc], nextId := db.nextId + 1 },
    to_dict doc)

/-- `Resource.bulk_create`: `insert_many`, returning the inserted
count. -/
def Resource_bulk_create (store : Option DB) (docs : List Doc) :
    Except StoreError (DB × Nat) := do
  let db ← get_collection store
  let stamped := docs.enum.map (fun p => withId (db.nextId + p.1) p.2)
  Except.ok ({ db with resources := db.resources ++ stamped, nextId := db.nextId + docs.length },
    docs.length)

/-- `Resource.find_all` as a repository operation. -/
def Resource_find_all (store : Option DB) (filter : Doc) (skip limit : Nat)
    (sort_by sort_order : String) (search : Option String) :
    Except StoreError FindAllResult := do
  let db ← get_collection store
  Except.ok (Resource_find_all_core db.resources filter skip limit sort_by sort_order search)

/-- `Resource.find_by_id`. -/
def Resource_find_by_id (store : Option DB) (rid : String) :
    Except StoreError (Option Doc) := do
  let db ← get_collection store
  let n ← parseOid rid
  Except.ok ((db.resources.find? (fun d => getS d "_id" == Value.oid n)).map to_dict)

/-- `Resource.update`: `$set` partial merge on the matching document;
returns whether a document was modified (the source stamps a fresh
`updated_at` on every update, so any matched document counts as
modified). -/
def Resource_update (store : Option DB) (rid : String) (upd : Doc) :
    Except StoreError (DB × Bool) := do
  let db ← get_collection store
  let n ← parseOid rid
  let matched := db.resources.any (fun d => getS d "_id" == Value.oid n)
  let updated := db.resources.map (fun d => if getS d "_id" = Value.oid n then applySet d upd else d)
  Except.ok ({ db with resources := updated }, matched)

/-- `Resource.delete`. -/
def Resource_delete (store : Option DB) (rid : String) :
    Except StoreError (DB × Bool) := do
  let db ← get_collection store
  let n ← parseOid rid
  let remaining := db.resources.filter (fun d => !(getS d "_id" == Value.oid n))
  Except.ok ({ db with resources := remaining },
    decide (db.resources.length ≠ remaining.length))

/-- `Resource.bulk_delete`: `delete_many` by filter, returning the
deleted count. -/
def Resource_bulk_delete (store : Option DB) (filter : Doc) :
    Except StoreError (DB × Nat) := do
  let db ← get_collection store
  let remaining := db.resources.filter (fun d => !matchesFilter filter d)
  Except.ok ({ db with resources := remaining }, db.resources.length - remaining.length)

/-- `Rule.create`. -/
def Rule_create (store : Option DB) (data : Doc) : Except StoreError (DB × Doc) := do
  let db ← get_collection store
  let doc := withId db.nextId data
  Except.ok ({ db with rules := db.rules ++ [doc], nextId := db.nextId + 1 }, to_dict doc)

/-- `Rule.bulk_create`. -/
def Rule_bulk_create (store : Option DB) (docs : List Doc) :
    Except StoreError (DB × Nat) := do
  let db ← get_collection store
  let stamped := docs.enum.map (fun p => withId (db.nextId + p.1) p.2)
  Except.ok ({ db with rules := db.rules ++ stamped, nextId := db.nextId + docs.length },
    docs.length)

/-- `Rule.find_all`: `find({})` over the rules collection. -/
def Rule_find_all (store : Option DB) : Except StoreError (List Doc) := do
  let db ← get_collection store
  Except.ok (db.rules.map to_dict)

/-- `Rule.find_by_id`. -/
def Rule_find_by_id (store : Option DB) (rid : String) :
    Except StoreError (Option Doc) := do
  let db ← get_collection store
  let n ← parseOid rid
  Except.ok ((db.rules.find? (fun d => getS d "_id" == Value.oid n)).map to_dict)

/-- `Rule.update`. -/
def Rule_update (store : Option DB) (rid : String) (upd : Doc) :
    Except StoreError (DB × Bool) := do
  let db ← get_collection store
  let n ← parseOid rid
  let matched := db.rules.any (fun d => getS d "_id" == Value.oid n)
  let updated := db.rules.map (fun d => if getS d "_id" = Value.oid n then applySet d upd else d)
  Except.ok ({ db with rules := updated }, matched)

/-- `Rule.delete`. -/
def Rule_delete (store : Option DB) (rid : String) :
    Except StoreError (DB × Bool) := do
  let db ← get_collection store
  let n ← parseOid rid
  let remaining := db.rules.filter (fun d => !(getS d "_id" == Value.oid n))
  Except.ok ({ db with rules := remaining },
    decide (db.rules.length ≠ remaining.length))

/-- `Rule.bulk_delete`. -/
def Rule_bulk_delete (store : Option DB) (filter : Doc) :
    Except StoreError (DB × Nat) := do
  let db ← get_collection store
  let remaining := db.rules.filter (fun d => !matchesFilter filter d)
  Except.ok ({ db with rules := remaining }, db.rules.length - remaining.length)

/-- The `$group: {_id: '$key', count: {$sum: 1}}` stage: one entry per
distinct value of the field among the documents (a missing field groups
under null, which `getS` reproduces), with its occurrence count.
MongoDB does not fix the output order of `$group`; the model uses the
deterministic `dedup` order as a stand-in. -/
def groupCounts (key : String) (docs : List Doc) : List (Value × Nat) :=
  let vals := docs.map (fun d => getS d key)
  vals.dedup.map (fun v => (v, vals.count v))

/-- The fixed-shape severity mapping built by
`Finding.get_severity_summary`. -/
structure SeveritySummary where
  CRITICAL : Nat
  HIGH : Nat
  MEDIUM : Nat
  LOW : Nat
  INFO : Nat
deriving DecidableEq

/-- One iteration of the result-formatting loop of
`get_severity_summary`: `if severity and severity in severity_counts:
severity_counts[severity] = count`.  Only the five canonical severity
strings are keys of the dict (and each is truthy); every other group —
a null, a non-string, or an off-list string — falls through untouched. -/
def setSeverity (s : SeveritySummary) (sv : Value) (c : Nat) : SeveritySummary :=
  if sv = Value.str "CRITICAL" then { s with CRITICAL := c }
  else if sv = Value.str "HIGH" then { s with HIGH := c }
  else if sv = Value.str "MEDIUM" then { s with MEDIUM := c }
  else if sv = Value.str "LOW" then { s with LOW := c }
  else if sv = Value.str "INFO" then { s with INFO := c }
  else s

/-- `Finding.get_severity_summary` on the collection contents: group by
`$severity`, then pour the group counts into the zero-initialised
five-key dict. -/
def severitySummaryOf (findings : List Doc) : SeveritySummary :=
  (groupCounts "severity" findings).foldl (fun s g => setSeverity s g.1 g.2)
    { CRITICAL := 0, HIGH := 0, MEDIUM := 0, LOW := 0, INFO := 0 }

/-- `Finding.get_by_resource_type` on the collection contents. -/
def byResourceTypeOf (findings : List Doc) : List (Value × Nat) :=
  groupCounts "resource_type" findings

/-- The `$lookup`/`$unwind` stages of `Finding.get_by_region` for one
finding: the region keys the finding contributes to the `$group`
stage.  `$lookup` joins on BSON equality of `Finding.resource_id`
against `Resource._id`; with no match, `$unwind` with
`preserveNullAndEmptyArrays` keeps the finding with the `resource`
field absent, so `$resource.region` is missing and the finding groups
under null. -/
def regionKeysOf (resources : List Doc) (f : Doc) : List Value :=
  let matched := resources.filter (fun r => getS r "_id" == getS f "resource_id")
  match matched with
  | [] => [Value.none]
  | ms => ms.map (fun m => getS m "region")

/-- `Finding.get_by_region` on the collection contents: group the
per-finding region keys, then render each group as
`r['_id'] or 'unknown'` (Python `or`, so a null or otherwise falsy
region becomes the literal `"unknown"`). -/
def byRegionOf (findings resources : List Doc) : List (Value × Nat) :=
  let keys := findings.flatMap (regionKeysOf resources)
  (keys.dedup.map (fun v => (v, keys.count v))).map
    (fun g => ((if truthy g.1 then g.1 else Value.str "unknown"), g.2))

/-- `Finding.create`. -/
def Finding_create (store : Option DB) (data : Doc) : Except StoreError (DB × Doc) := do
  let db ← get_collection store
  let doc := withId db.nextId data
  Except.ok ({ db with findings := db.findings ++ [doc], nextId := db.nextId + 1 },
    to_dict doc)

/-- `Finding.find_all`: `find({})` over the findings collection. -/
def Finding_find_all (store : Option DB) : Except StoreError (List Doc) := do
  let db ← get_collection store
  Except.ok (db.findings.map to_dict)

/-- `Finding.clear_all`: `delete_many({})`, returning the deleted
count. -/
def Finding_clear_all (store : Option DB) : Except StoreError (DB × Nat) := do
  let db ← get_collection store
  Except.ok ({ db with findings := [] }, db.findings.length)

/-- `Finding.get_severity_summary` as a repository operation. -/
def Finding_get_severity_summary (store : Option DB) : Except StoreError SeveritySummary := do
  let db ← get_collection store
  Except.ok (severitySummaryOf db.findings)

/-- `Finding.get_by_resource_type` as a repository operation. -/
def Finding_get_by_resource_type (store : Option DB) : Except StoreError (List (Value × Nat)) := do
  let db ← get_collection store
  Except.ok (byResourceTypeOf db.findings)

/-- `Finding.get_by_region` as a repository operation (the one
cross-collection query: it reads the findings collection and joins the
resources collection). -/
def Finding_get_by_region (store : Option DB) : Except StoreError (List (Value × Nat)) := do
  let db ← get_collection store
  Except.ok (byRegionOf db.findings db.resources)

/-- The counters reported by `ScanEngine.scan_all_resources`. -/
structure ScanResult where
  resources_scanned : Nat
  rules_evaluated : Nat
  findings_created : Nat
deriving DecidableEq

/-- The type-scoping skip test of the scan loop:
`rule_resource_type and resource.get('resource_type') !=
rule_resource_type` (Python `!=`, i.e. the negation of Python `==`). -/
def skipRule (resource rule : Doc) : Bool :=
  truthy (getS rule "resource_type") &&
    !(pyEq (getS resource "resource_type") (getS rule "resource_type"))

/-- The `finding_data` dict the scan loop builds on a match (without
the `_id` the insert adds).  `resource` here is the `to_dict`-converted
document from `Resource.find_all`, so `resource['_id']` is the
stringified id. -/
def mkFinding (resource rule : Doc) : Doc :=
  [("resource_id", getS resource "_id"),
   ("resource_name", getD resource "name" (Value.str "Unknown")),
   ("resource_type", getD resource "resource_type" (Value.str "Unknown")),
   ("rule_name", getD rule "name" (Value.str "Unknown Rule")),
   ("rule_description", getD rule "description" (Value.str "")),
   ("severity", getD rule "severity" (Value.str "MEDIUM")),
   ("field", getS rule "field"),
   ("actual_value", Value.str (pyStr (resourceGet resource (getS rule "field")))),
   ("expected_value", Value.str (pyStr (getS rule "value"))),
   ("operator", getS rule "op")]

/-- Mutable state of the nested scan loop: the findings written so far
(with the id generator), and the three counters. -/
structure LoopState where
  findings : List Doc
  nextId : Nat
  findings_created : Nat
  resources_scanned : Nat
  rules_evaluated : Nat
deriving DecidableEq

/-- Body of the inner (per-rule) scan loop: bump `rules_evaluated`
first, then skip on the type filter, else evaluate and on a match
persist the finding and bump `findings_created`. -/
def scanRule (resource : Doc) (st : LoopState) (rule : Doc) : LoopState :=
  let st := { st with rules_evaluated := st.rules_evaluated + 1 }
  if skipRule resource rule then st
  else if evaluate_rule resource rule then
    { st with
      findings := st.findings ++ [withId st.nextId (mkFinding resource rule)],
      nextId := st.nextId + 1,
      findings_created := st.findings_created + 1 }
  else st

/-- Body of the outer (per-resource) scan loop: bump
`resources_scanned`, then run every rule. -/
def scanResource (rules : List Doc) (st : LoopState) (resource : Doc) : LoopState :=
  rules.foldl (scanRule resource) { st with resources_scanned := st.resources_scanned + 1 }

/-- `ScanEngine.scan_all_resources` on an available store: clear all
findings, load all resources (`find_all` with `limit=10000` and its
default filter/sort) and all rules, run the nested loop, and return
the new store state with the three counters. -/
def scan_all_resources (db : DB) : DB × ScanResult :=
  let cleared : DB := { db with findings := [] }
  let resources := (Resource_find_all_core cleared.resources [] 0 10000 "name" "asc" Option.none).data
  let rules := cleared.rules.map to_dict
  let st := resources.foldl (scanResource rules)
    { findings := [], nextId := cleared.nextId, findings_created := 0,
      resources_scanned := 0, rules_evaluated := 0 }
  ({ cleared with findings := st.findings, nextId := st.nextId },
   { resources_scanned := st.resources_scanned,
     rules_evaluated := st.rules_evaluated,
     findings_created := st.findings_created })

/-- The closed operator enumeration of `evaluate_rule`'s dispatch
chain. -/
def opEnum : List String :=
  ["eq", "neq", "gt", "lt", "gte", "lte", "contains", "not_contains", "in", "not_in"]

/-- `isinstance(v, list)`. -/
def isList : Value → Bool
  | Value.list _ => true
  | _ => false

/-! ### Dispatch lemmas for `evalOp` -/

theorem evalOp_eq_op (a e : Value) :
    evalOp (Value.str "eq") a e = (pyStr a == pyStr e) := by
  unfold evalOp
  rw [if_pos rfl]

/-- Shape of the four ordering branches: compare only when both sides
parsed, otherwise `false`. -/
def ordCompare (f : Rat → Rat → Bool) : Option Rat → Option Rat → Bool
  | some x, some y => f x y
  | _, _ => false

theorem ordCompare_none (f : Rat → Rat → Bool) (a e : Option Rat)
    (h : a = Option.none ∨ e = Option.none) : ordCompare f a e = false := by
  rcases h with h | h <;> subst h
  · cases e <;> rfl
  · cases a <;> rfl

theorem evalOp_gt (a e : Value) :
    evalOp (Value.str "gt") a e =
      ordCompare (fun x y => decide (x > y)) (pyFloat a) (pyFloat e) := by
  unfold evalOp
  rw [if_neg (by decide), if_neg (by decide), if_pos rfl]
  cases pyFloat a <;> cases pyFloat e <;> rfl

theorem evalOp_lt (a e : Value) :
    evalOp (Value.str "lt") a e =
      ordCompare (fun x y => decide (x < y)) (pyFloat a) (pyFloat e) := by
  unfold evalOp
  rw [if_neg (by decide), if_neg (by decide), if_neg (by decide), if_pos rfl]
  cases pyFloat a <;> cases pyFloat e <;> rfl

theorem evalOp_gte (a e : Value) :
    evalOp (Value.str "gte") a e =
      ordCompare (fun x y => decide (x ≥ y)) (pyFloat a) (pyFloat e) := by
  unfold evalOp
  rw [if_neg (by decide), if_neg (by decide), if_neg (by decide), if_neg (by decide),
    if_pos rfl]
  cases pyFloat a <;> cases pyFloat e <;> rfl

theorem evalOp_lte (a e : Value) :
    evalOp (Value.str "lte") a e =
      ordCompare (fun x y => decide (x ≤ y)) (pyFloat a) (pyFloat e) := by
  unfold evalOp
  rw [if_neg (by decide), if_neg (by decide), if_neg (by decide), if_neg (by decide),
    if_neg (by decide), if_pos rfl]
  cases pyFloat a <;> cases pyFloat e <;> rfl

theorem evalOp_in_op (a e : Value) :
    evalOp (Value.str "in") a e =
      (match e with
       | Value.list l => l.any (fun x => pyEq x a)
       | _ => false) := by
  unfold evalOp
  rw [if_neg (by decide), if_neg (by decide), if_neg (by decide), if_neg (by decide),
    if_neg (by decide), if_neg (by decide), if_neg (by decide), if_neg (by decide),
    if_pos rfl]

theorem evalOp_not_in (a e : Value) :
    evalOp (Value.str "not_in") a e =
      (match e with
       | Value.list l => !l.any (fun x => pyEq x a)
       | _ => false) := by
  unfold evalOp
  rw [if_neg (by decide), if_neg (by decide), if_neg (by decide), if_neg (by decide),
    if_neg (by decide), if_neg (by decide), if_neg (by decide), if_neg (by decide),
    if_neg (by decide), if_pos rfl]

theorem evalOp_unknown (op a e : Value) (h : ∀ s ∈ opEnum, op ≠ Value.str s) :
    evalOp op a e = false := by
  unfold evalOp
  rw [if_neg (h "eq" (by simp [opEnum])), if_neg (h "neq" (by simp [opEnum])),
    if_neg (h "gt" (by simp [opEnum])), if_neg (h "lt" (by simp [opEnum])),
    if_neg (h "gte" (by simp [opEnum])), if_neg (h "lte" (by simp [opEnum])),
    if_neg (h "contains" (by simp [opEnum])), if_neg (h "not_contains" (by simp [opEnum])),
    if_neg (h "in" (by simp [opEnum])), if_neg (h "not_in" (by simp [opEnum]))]

/-- When the engine reads a `None` actual value — absent key or stored
null — it returns `false` before dispatching on the operator. -/
theorem evaluate_rule_of_actual_none (resource rule : Doc)
    (h : resourceGet resource (getS rule "field") = Value.none) :
    evaluate_rule resource rule = false := by
  unfold evaluate_rule
  simp [h]

theorem evaluate_rule_of_actual_ne_none (resource rule : Doc)
    (h : resourceGet resource (getS rule "field") ≠ Value.none) :
    evaluate_rule resource rule =
      evalOp (getS rule "op") (resourceGet resource (getS rule "field")) (getS rule "value") := by
  unfold evaluate_rule
  simp [h]

theorem evalOp_ord_none (op a e : Value)
    (hop : op = Value.str "gt" ∨ op = Value.str "lt" ∨
           op = Value.str "gte" ∨ op = Value.str "lte")
    (h : pyFloat a = Option.none ∨ pyFloat e = Option.none) :
    evalOp op a e = false := by
  rcases hop with h1 | h1 | h1 | h1 <;> subst h1
  · rw [evalOp_gt]; exact ordCompare_none _ _ _ h
  · rw [evalOp_lt]; exact ordCompare_none _ _ _ h
  · rw [evalOp_gte]; exact ordCompare_none _ _ _ h
  · rw [evalOp_lte]; exact ordCompare_none _ _ _ h

theorem evalOp_membership_nonlist (op a e : Value)
    (hop : op = Value.str "in" ∨ op = Value.str "not_in")
    (h : isList e = false) : evalOp op a e = false := by
  rcases hop with h1 | h1 <;> subst h1
  · rw [evalOp_in_op]; cases e <;> simp_all [isList]
  · rw [evalOp_not_in]; cases e <;> simp_all [isList]

/-- C4: the enumerated failure modes of `evaluate_rule` all resolve to
`false` (the model's type `Doc → Doc → Bool` already exhibits
evaluation as a total function — nothing can escape): an ordering
operator with a side that does not parse as a number, a membership
operator whose expected value is not a list, and an operator tag
outside the closed enumeration. -/
theorem c4_failure_modes_resolve_false :
    (∀ R Ru : Doc,
      (getS Ru "op" = Value.str "gt" ∨ getS Ru "op" = Value.str "lt" ∨
       getS Ru "op" = Value.str "gte" ∨ getS Ru "op" = Value.str "lte") →
      (pyFloat (resourceGet R (getS Ru "field")) = Option.none ∨
       pyFloat (getS Ru "value") = Option.none) →
      evaluate_rule R Ru = false) ∧
    (∀ R Ru : Doc,
      (getS Ru "op" = Value.str "in" ∨ getS Ru "op" = Value.str "not_in") →
      isList (getS Ru "value") = false →
      evaluate_rule R Ru = false) ∧
    (∀ R Ru : Doc, (∀ s ∈ opEnum, getS Ru "op" ≠ Value.str s) →
      evaluate_rule R Ru = false) := by
  refine ⟨?_, ?_, ?_⟩
  · intro R Ru hop hpf
    by_cases hact : resourceGet R (getS Ru "field") = Value.none
    · exact evaluate_rule_of_actual_none _ _ hact
    · rw [evaluate_rule_of_actual_ne_none _ _ hact]
      exact evalOp_ord_none _ _ _ hop hpf
  · intro R Ru hop hl
    by_cases hact : resourceGet R (getS Ru "field") = Value.none
    · exact evaluate_rule_of_actual_none _ _ hact
    · rw [evaluate_rule_of_actual_ne_none _ _ hact]
      exact evalOp_membership_nonlist _ _ _ hop hl
  · intro R Ru h
    by_cases hact : resourceGet R (getS Ru "field") = Value.none
    · exact evaluate_rule_of_actual_none _ _ hact
    · rw [evaluate_rule_of_actual_ne_none _ _ hact]
      exact evalOp_unknown _ _ _ h

/-- C4 witness: a `gt` rule against a non-numeric actual, an `in` rule
whose expected value is a scalar, and an off-enumeration operator, each
at a concrete input. -/
theorem c4_witness :
    evaluate_rule [("n", Value.str "abc")]
      [("field", Value.str "n"), ("op", Value.str "gt"), ("value", Value.int 9)] = false ∧
    evaluate_rule [("n", Value.int 1)]
      [("field", Value.str "n"), ("op", Value.str "in"), ("value", Value.int 1)] = false ∧
    evaluate_rule [("n", Value.int 1)]
      [("field", Value.str "n"), ("op", Value.str "matches"), ("value", Value.int 1)] = false :=
  ⟨c4_failure_modes_resolve_false.1 _ _ (Or.inl (by decide)) (Or.inl (by decide)),
   c4_failure_modes_resolve_false.2.1 _ _ (Or.inl (by decide)) (by decide),
   c4_failure_modes_resolve_false.2.2 _ _ (by decide)⟩

/-- C5: a rule whose field is not a key of the resource evaluates to
`false` whatever the operator and expected value are. -/
theorem c5_absent_field_no_match (R Ru : Doc) (f : String)
    (hf : getS Ru "field" = Value.str f)
    (habs : List.lookup f R = Option.none) :
    evaluate_rule R Ru = false := by
  apply evaluate_rule_of_actual_none
  rw [hf]
  simp [resourceGet, getS, habs]

/-- C5 witness: a rule on a field the resource lacks. -/
theorem c5_witness :
    List.lookup "missing" [("name", Value.str "web")] = Option.none ∧
    evaluate_rule [("name", Value.str "web")]
      [("field", Value.str "missing"), ("op", Value.str "eq"), ("value", Value.str "x")] = false :=
  ⟨by decide,
   c5_absent_field_no_match _ _ "missing" (by decide) (by decide)⟩

/-- C10: a field that is present but bound to null evaluates to `false`
for every operator and expected value — indistinguishable from an
absent field at the evaluation interface. -/
theorem c10_null_field_no_match (R Ru : Doc) (f : String)
    (hf : getS Ru "field" = Value.str f)
    (hnull : List.lookup f R = some Value.none) :
    evaluate_rule R Ru = false := by
  apply evaluate_rule_of_actual_none
  rw [hf]
  simp [resourceGet, getS, hnull]

/-- C10 witness: an `eq` rule expecting the string `"None"` still does
not fire on a present-but-null field. -/
theorem c10_witness :
    List.lookup "status" [("status", Value.none)] = some Value.none ∧
    evaluate_rule [("status", Value.none)]
      [("field", Value.str "status"), ("op", Value.str "eq"), ("value", Value.str "None")] = false :=
  ⟨by decide,
   c10_null_field_no_match _ _ "status" (by decide) (by decide)⟩

/-- C3 counterexample: the claim quantifies over every resource in
which the rule's field is present; on a present-but-null field the
string forms agree (`str(None) == "None"`) yet the engine returns
`false`, so the claimed equivalence fails as stated. -/
theorem c3_counterexample :
    List.lookup "status" [("status", Value.none)] = some Value.none ∧
    (pyStr Value.none == pyStr (Value.str "None")) = true ∧
    evaluate_rule [("status", Value.none)]
      [("field", Value.str "status"), ("op", Value.str "eq"), ("value", Value.str "None")] ≠
      (pyStr Value.none == pyStr (Value.str "None")) := by
  refine ⟨by decide, by decide, by decide⟩

/-- C3 amended: for an `eq` rule whose field is present in the resource
with a non-null value, evaluation returns `true` iff the string forms
of the actual and expected values are equal. -/
theorem c3_eq_matches_stringified (R Ru : Doc) (f : String) (v : Value)
    (hf : getS Ru "field" = Value.str f)
    (hop : getS Ru "op" = Value.str "eq")
    (hv : List.lookup f R = some v)
    (hnn : v ≠ Value.none) :
    evaluate_rule R Ru = (pyStr v == pyStr (getS Ru "value")) := by
  have hact : resourceGet R (getS Ru "field") = v := by
    rw [hf]; simp [resourceGet, getS, hv]
  rw [evaluate_rule_of_actual_ne_none _ _ (by rw [hact]; exact hnn), hact, hop,
    evalOp_eq_op]

/-- C3 witness: heterogeneous `eq` comparison at a concrete input —
the numeric actual `1` matches the expected string `"1"`. -/
theorem c3_witness :
    evaluate_rule [("count", Value.int 1)]
      [("field", Value.str "count"), ("op", Value.str "eq"), ("value", Value.str "1")] =
      (pyStr (Value.int 1) ==
        pyStr (getS [("field", Value.str "count"), ("op", Value.str "eq"),
          ("value", Value.str "1")] "value")) :=
  c3_eq_matches_stringified _ _ "count" (Value.int 1) (by decide) (by decide) (by decide)
    (by decide)

/-! ### Severity summary (C1) -/

/-- The five canonical severity labels, in the dict order of the
source. -/
def severityKeys : List String :=
  ["CRITICAL", "HIGH", "MEDIUM", "LOW", "INFO"]

/-- Whether a severity value is one of the five canonical strings
(i.e. is a key of the summary dict). -/
def isCanonicalSeverity (v : Value) : Bool :=
  (severityKeys.map Value.str).contains v

/-- Keys of an association list built by tagging each element of `l`
with a function of itself. -/
theorem map_fst_tag {α β : Type} (l : List α) (g : α → β) :
    (l.map (fun v => (v, g v))).map Prod.fst = l := by
  induction l with
  | nil => rfl
  | cons x xs ih => simp [ih]

/-- Lookup in such an association list evaluates the tagging function
on a member and misses otherwise. -/
theorem lookup_tag (l : List Value) (g : Value → Nat) (K : Value) :
    List.lookup K (l.map (fun v => (v, g v))) =
      (if K ∈ l then some (g K) else Option.none) := by
  induction l with
  | nil => rfl
  | cons x xs ih =>
    by_cases h : K = x
    · subst h
      simp [List.lookup]
    · have hb : (K == x) = false := by simp [h]
      simp [List.lookup, hb, h, ih]

/-- After the formatting fold, a field of the summary holds the count
of the (unique) group entry for its key, or its initial value when no
group carries the key. -/
theorem foldl_setSeverity (get : SeveritySummary → Nat) (K : Value)
    (hK : ∀ s sv c, sv ≠ K → get (setSeverity s sv c) = get s)
    (hset : ∀ s c, get (setSeverity s K c) = c)
    (results : List (Value × Nat)) (hnodup : (results.map Prod.fst).Nodup)
    (init : SeveritySummary) :
    get (results.foldl (fun s g => setSeverity s g.1 g.2) init) =
      (List.lookup K results).getD (get init) := by
  induction results generalizing init with
  | nil => rfl
  | cons g rs ih =>
    obtain ⟨sv, c⟩ := g
    have hnd : (rs.map Prod.fst).Nodup := hnodup.of_cons
    by_cases h : sv = K
    · subst h
      have hnot : sv ∉ rs.map Prod.fst := by
        simpa using (List.nodup_cons.mp hnodup).1
      have hlk : List.lookup sv rs = Option.none := by
        rw [List.lookup_eq_none_iff]
        intro p hp
        simp only [bne_iff_ne, ne_eq]
        intro he
        exact hnot (by rw [he]; exact List.mem_map_of_mem Prod.fst hp)
      simp only [List.foldl_cons, ih hnd, hlk, List.lookup_cons_self]
      simp [hset]
    · have hb : (K == sv) = false := beq_eq_false_iff_ne.mpr (fun hh => h hh.symm)
      have hlk : List.lookup K ((sv, c) :: rs) = List.lookup K rs := by
        simp [List.lookup, hb]
      rw [List.foldl_cons, ih hnd, hlk, hK init sv c h]

/-- Each field of `severitySummaryOf` counts exactly the findings whose
severity equals that field's label. -/
theorem severitySummaryOf_field (get : SeveritySummary → Nat) (K : Value)
    (hK : ∀ s sv c, sv ≠ K → get (setSeverity s sv c) = get s)
    (hset : ∀ s c, get (setSeverity s K c) = c)
    (hzero : get { CRITICAL := 0, HIGH := 0, MEDIUM := 0, LOW := 0, INFO := 0 } = 0)
    (findings : List Doc) :
    get (severitySummaryOf findings) =
      (findings.map (fun f => getS f "severity")).count K := by
  unfold severitySummaryOf groupCounts
  set vals := findings.map (fun f => getS f "severity") with hvals
  rw [foldl_setSeverity get K hK hset _
    (by rw [map_fst_tag]; exact vals.nodup_dedup)]
  rw [lookup_tag, hzero]
  by_cases hm : K ∈ vals.dedup
  · simp [hm]
  · have : K ∉ vals := fun hc => hm (List.mem_dedup.mpr hc)
    simp [hm, List.count_eq_zero.mpr this]

theorem summary_CRITICAL (findings : List Doc) :
    (severitySummaryOf findings).CRITICAL =
      (findings.map (fun f => getS f "severity")).count (Value.str "CRITICAL") := by
  refine severitySummaryOf_field _ _ ?_ ?_ rfl findings
  · intro s sv c h
    unfold setSeverity
    split_ifs <;> simp_all
  · intro s c
    unfold setSeverity
    rw [if_pos rfl]

theorem summary_HIGH (findings : List Doc) :
    (severitySummaryOf findings).HIGH =
      (findings.map (fun f => getS f "severity")).count (Value.str "HIGH") := by
  refine severitySummaryOf_field _ _ ?_ ?_ rfl findings
  · intro s sv c h
    unfold setSeverity
    split_ifs <;> simp_all
  · intro s c
    unfold setSeverity
    rw [if_neg (by decide), if_pos rfl]

theorem summary_MEDIUM (findings : List Doc) :
    (severitySummaryOf findings).MEDIUM =
      (findings.map (fun f => getS f "severity")).count (Value.str "MEDIUM") := by
  refine severitySummaryOf_field _ _ ?_ ?_ rfl findings
  · intro s sv c h
    unfold setSeverity
    split_ifs <;> simp_all
  · intro s c
    unfold setSeverity
    rw [if_neg (by decide), if_neg (by decide), if_pos rfl]

theorem summary_LOW (findings : List Doc) :
    (severitySummaryOf findings).LOW =
      (findings.map (fun f => getS f "severity")).count (Value.str "LOW") := by
  refine severitySummaryOf_field _ _ ?_ ?_ rfl findings
  · intro s sv c h
    unfold setSeverity
    split_ifs <;> simp_all
  · intro s c
    unfold setSeverity
    rw [if_neg (by decide), if_neg (by decide), if_neg (by decide), if_pos rfl]

theorem summary_INFO (findings : List Doc) :
    (severitySummaryOf findings).INFO =
      (findings.map (fun f => getS f "severity")).count (Value.str "INFO") := by
  refine severitySummaryOf_field _ _ ?_ ?_ rfl findings
  · intro s sv c h
    unfold setSeverity
    split_ifs <;> simp_all
  · intro s c
    unfold setSeverity
    rw [if_neg (by decide), if_neg (by decide), if_neg (by decide), if_neg (by decide),
      if_pos rfl]

/-- The five per-key counts sum to the number of values that are
canonical severities. -/
theorem counts_sum_eq_filter_length (vals : List Value) :
    vals.count (Value.str "CRITICAL") + vals.count (Value.str "HIGH") +
      vals.count (Value.str "MEDIUM") + vals.count (Value.str "LOW") +
      vals.count (Value.str "INFO") =
      (vals.filter (fun v => isCanonicalSeverity v)).length := by
  induction vals with
  | nil => rfl
  | cons v vs ih =>
    by_cases hc : isCanonicalSeverity v = true
    · have : v = Value.str "CRITICAL" ∨ v = Value.str "HIGH" ∨ v = Value.str "MEDIUM" ∨
          v = Value.str "LOW" ∨ v = Value.str "INFO" := by
        simpa [isCanonicalSeverity, severityKeys] using hc
      rcases this with rfl | rfl | rfl | rfl | rfl <;>
        simp_all [List.count_cons, List.filter_cons] <;> omega
    · have hne : ∀ s ∈ severityKeys, v ≠ Value.str s := by
        intro s hs he
        exact hc (by simp [isCanonicalSeverity, he, hs])
      simp only [List.count_cons, List.filter_cons, hc, if_false]
      have h1 := hne "CRITICAL" (by simp [severityKeys])
      have h2 := hne "HIGH" (by simp [severityKeys])
      have h3 := hne "MEDIUM" (by simp [severityKeys])
      have h4 := hne "LOW" (by simp [severityKeys])
      have h5 := hne "INFO" (by simp [severityKeys])
      simp [h1, h2, h3, h4, h5, ih]

/-- C1 counterexample: a finding whose severity is not one of the five
canonical strings is dropped by the `if severity and severity in
severity_counts` guard, so the five counts sum to 0 while `find_all`
returns one finding — the claimed round-trip fails as stated. -/
theorem c1_counterexample :
    (severitySummaryOf [[("severity", Value.str "WEIRD")]]).CRITICAL +
      (severitySummaryOf [[("severity", Value.str "WEIRD")]]).HIGH +
      (severitySummaryOf [[("severity", Value.str "WEIRD")]]).MEDIUM +
      (severitySummaryOf [[("severity", Value.str "WEIRD")]]).LOW +
      (severitySummaryOf [[("severity", Value.str "WEIRD")]]).INFO ≠
      (([[("severity", Value.str "WEIRD")]] : List Doc).map to_dict).length := by
  decide

/-- C1 amended: the summary is the fixed five-field shape (one `Nat`
per canonical severity, absent severities left at their zero default),
its five counts sum to the number of findings whose severity is one of
the five canonical strings, and hence to the length of the list
`find_all` returns whenever every finding's severity is canonical. -/
theorem c1_severity_summary_roundtrip (db : DB) :
    Finding_get_severity_summary (some db) = Except.ok (severitySummaryOf db.findings) ∧
    Finding_find_all (some db) = Except.ok (db.findings.map to_dict) ∧
    (severitySummaryOf db.findings).CRITICAL + (severitySummaryOf db.findings).HIGH +
      (severitySummaryOf db.findings).MEDIUM + (severitySummaryOf db.findings).LOW +
      (severitySummaryOf db.findings).INFO =
      (db.findings.filter (fun f => isCanonicalSeverity (getS f "severity"))).length ∧
    ((∀ f ∈ db.findings, isCanonicalSeverity (getS f "severity") = true) →
      (severitySummaryOf db.findings).CRITICAL + (severitySummaryOf db.findings).HIGH +
        (severitySummaryOf db.findings).MEDIUM + (severitySummaryOf db.findings).LOW +
        (severitySummaryOf db.findings).INFO = (db.findings.map to_dict).length) := by
  have hsum : (severitySummaryOf db.findings).CRITICAL + (severitySummaryOf db.findings).HIGH +
      (severitySummaryOf db.findings).MEDIUM + (severitySummaryOf db.findings).LOW +
      (severitySummaryOf db.findings).INFO =
      (db.findings.filter (fun f => isCanonicalSeverity (getS f "severity"))).length := by
    rw [summary_CRITICAL, summary_HIGH, summary_MEDIUM, summary_LOW, summary_INFO,
      counts_sum_eq_filter_length]
    simp only [List.filter_map, Function.comp, List.length_map]
    rfl
  refine ⟨rfl, rfl, hsum, ?_⟩
  intro h
  rw [hsum, List.filter_eq_self.mpr h]
  simp

/-- C1 witness: on a store whose one finding carries a canonical
severity, the counts sum to the length of the `find_all` list. -/
theorem c1_witness :
    (severitySummaryOf [[("severity", Value.str "HIGH")]]).CRITICAL +
      (severitySummaryOf [[("severity", Value.str "HIGH")]]).HIGH +
      (severitySummaryOf [[("severity", Value.str "HIGH")]]).MEDIUM +
      (severitySummaryOf [[("severity", Value.str "HIGH")]]).LOW +
      (severitySummaryOf [[("severity", Value.str "HIGH")]]).INFO =
      (([[("severity", Value.str "HIGH")]] : List Doc).map to_dict).length :=
  (c1_severity_summary_roundtrip
    { resources := [], rules := [], findings := [[("severity", Value.str "HIGH")]], nextId := 0 }).2.2.2
    (by decide)

/-! ### Scan loop characterisation (C6, C7, C8) -/

/-- A (resource, rule) pair generates a finding iff the type-scoping
filter does not skip it and the evaluation engine matches. -/
def pairMatches (resource rule : Doc) : Bool :=
  !skipRule resource rule && evaluate_rule resource rule

/-- The finding contents (before id assignment) one resource produces
against a rule list, in loop order. -/
def ruleFindings (resource : Doc) (rules : List Doc) : List Doc :=
  (rules.filter (fun ru => pairMatches resource ru)).map (mkFinding resource)

/-- The finding contents of a whole scan, resource-major, rule-minor. -/
def scanFindings (resources rules : List Doc) : List Doc :=
  resources.flatMap (fun r => ruleFindings r rules)

/-- The (resource, rule) pairs the nested loop considers, in order. -/
def scanPairs (resources rules : List Doc) : List (Doc × Doc) :=
  resources.flatMap (fun r => rules.map (fun ru => (r, ru)))

/-- Tag successive documents with successive store-generated ids. -/
def emit (nid : Nat) : List Doc → List Doc
  | [] => []
  | d :: ds => withId nid d :: emit (nid + 1) ds

/-- The resource list the scan loads: `Resource.find_all(limit=10000)`
with the default filter, sort and search. -/
def loadedResources (db : DB) : List Doc :=
  (Resource_find_all_core db.resources [] 0 10000 "name" "asc" Option.none).data

/-- The rule list the scan loads: `Rule.find_all()`. -/
def loadedRules (db : DB) : List Doc :=
  db.rules.map to_dict

/-- A finding's content with the store-assigned `_id` removed. -/
def stripId (d : Doc) : Doc :=
  d.filter (fun kv => kv.1 != "_id")

theorem emit_append (n : Nat) (xs ys : List Doc) :
    emit n (xs ++ ys) = emit n xs ++ emit (n + xs.length) ys := by
  induction xs generalizing n with
  | nil => simp [emit]
  | cons d ds ih =>
    have h2 : n + (ds.length + 1) = n + 1 + ds.length := by omega
    simp only [List.cons_append, emit, List.length_cons, h2]
    exact congrArg (List.cons (withId n d)) (ih (n + 1))

theorem map_stripId_emit (n : Nat) (ds : List Doc) :
    (emit n ds).map stripId = ds.map stripId := by
  induction ds generalizing n with
  | nil => rfl
  | cons d rest ih =>
    simp [emit, stripId, withId, ih]

/-- Unrolling of the inner (per-rule) loop: it appends the id-tagged
finding contents of the matching rules, advances the id generator and
the `findings_created` counter by the number of matches, and bumps
`rules_evaluated` once per rule — including type-skipped ones. -/
theorem foldl_scanRule (resource : Doc) (rules : List Doc) (st : LoopState) :
    rules.foldl (scanRule resource) st =
      { findings := st.findings ++ emit st.nextId (ruleFindings resource rules),
        nextId := st.nextId + (ruleFindings resource rules).length,
        findings_created := st.findings_created + (ruleFindings resource rules).length,
        resources_scanned := st.resources_scanned,
        rules_evaluated := st.rules_evaluated + rules.length } := by
  induction rules generalizing st with
  | nil => simp [ruleFindings, emit]
  | cons ru rus ih =>
    rw [List.foldl_cons, ih]
    by_cases hskip : skipRule resource ru
    · have hpm : pairMatches resource ru = false := by simp [pairMatches, hskip]
      simp [scanRule, hskip, ruleFindings, List.filter_cons, hpm]
      omega
    · by_cases hev : evaluate_rule resource ru
      · have hpm : pairMatches resource ru = true := by simp [pairMatches, hskip, hev]
        simp only [scanRule, hskip, Bool.false_eq_true, if_false, hev, if_true,
          ruleFindings, List.filter_cons, hpm, List.map_cons, emit, List.length_cons]
        simp [emit_append, List.append_assoc]
        omega
      · have hpm : pairMatches resource ru = false := by simp [pairMatches, hskip, hev]
        simp [scanRule, hskip, hev, ruleFindings, List.filter_cons, hpm]
        omega

/-- Unrolling of the outer (per-resource) loop. -/
theorem foldl_scanResource (rules resources : List Doc) (st : LoopState) :
    resources.foldl (scanResource rules) st =
      { findings := st.findings ++ emit st.nextId (scanFindings resources rules),
        nextId := st.nextId + (scanFindings resources rules).length,
        findings_created := st.findings_created + (scanFindings resources rules).length,
        resources_scanned := st.resources_scanned + resources.length,
        rules_evaluated := st.rules_evaluated + resources.length * rules.length } := by
  induction resources generalizing st with
  | nil => simp [scanFindings, emit]
  | cons r rs ih =>
    rw [List.foldl_cons]
    have hstep : scanResource rules st r =
        rules.foldl (scanRule r) { st with resources_scanned := st.resources_scanned + 1 } := rfl
    rw [hstep, foldl_scanRule, ih]
    simp only [scanFindings, List.flatMap_cons, emit_append, List.length_append,
      List.length_cons, List.append_assoc]
    simp [Nat.succ_mul]
    omega

/-- `scan_all_resources` in closed form: the prior findings are
discarded, the loaded resource/rule lists drive the cross product, and
the new findings are the id-tagged contents of the matching pairs. -/
theorem scan_all_resources_spec (db : DB) :
    scan_all_resources db =
      ({ resources := db.resources, rules := db.rules,
         findings := emit db.nextId (scanFindings (loadedResources db) (loadedRules db)),
         nextId := db.nextId + (scanFindings (loadedResources db) (loadedRules db)).length },
       { resources_scanned := (loadedResources db).length,
         rules_evaluated := (loadedResources db).length * (loadedRules db).length,
         findings_created := (scanFindings (loadedResources db) (loadedRules db)).length }) := by
  simp only [scan_all_resources]
  rw [foldl_scanResource]
  simp [loadedResources, loadedRules]

theorem scanFindings_length (resources rules : List Doc) :
    (scanFindings resources rules).length =
      ((scanPairs resources rules).filter (fun p => pairMatches p.1 p.2)).length := by
  induction resources with
  | nil => rfl
  | cons r rs ih =>
    have hhead : (ruleFindings r rules).length =
        ((rules.map (fun ru => (r, ru))).filter (fun p => pairMatches p.1 p.2)).length := by
      unfold ruleFindings
      rw [List.length_map, List.filter_map, List.length_map]
      rfl
    simp only [scanFindings, scanPairs, List.flatMap_cons, List.length_append,
      List.filter_append]
    rw [hhead]
    congr 1

/-- C6: the scan's findings are exactly the id-tagged contents of the
pairs that pass the type-scoping filter and then match (so a pair
skipped by the filter contributes no finding, whatever its predicate
would evaluate to — in a pure embedding the non-invocation of the
evaluator is expressed by `pairMatches` being false independently of
`evaluate_rule`'s value); rules with a falsy (absent, null or empty)
`resource_type` are never skipped for any resource. -/
theorem c6_type_scoping (db : DB) (r ru : Doc) :
    ((scan_all_resources db).1.findings =
      emit db.nextId (scanFindings (loadedResources db) (loadedRules db))) ∧
    (skipRule r ru = true → pairMatches r ru = false) ∧
    (truthy (getS ru "resource_type") = false → skipRule r ru = false) := by
  refine ⟨?_, ?_, ?_⟩
  · rw [scan_all_resources_spec]
  · intro h
    simp [pairMatches, h]
  · intro h
    simp [skipRule, h]

/-- C6 witness (Scenario C): an `s3`-scoped rule against an `ec2`
resource whose field would otherwise match is skipped and generates no
finding; the unscoped variant of the rule is not skipped. -/
theorem c6_witness :
    pairMatches
      [("_id", Value.str "7"), ("resource_type", Value.str "ec2"), ("status", Value.str "running")]
      [("field", Value.str "status"), ("op", Value.str "eq"), ("value", Value.str "running"),
        ("resource_type", Value.str "s3")] = false ∧
    skipRule
      [("_id", Value.str "7"), ("resource_type", Value.str "ec2"), ("status", Value.str "running")]
      [("field", Value.str "status"), ("op", Value.str "eq"), ("value", Value.str "running")] =
      false :=
  ⟨(c6_type_scoping { resources := [], rules := [], findings := [], nextId := 0 } _ _).2.1
      (by decide),
   (c6_type_scoping { resources := [], rules := [], findings := [], nextId := 0 } _ _).2.2
      (by decide)⟩

/-- C7: the returned counters — `resources_scanned` is the number of
loaded resources, `rules_evaluated` is loaded resources times rules
(the counter is bumped before the type-scoping check, so skipped pairs
count), and `findings_created` is the number of considered pairs that
pass the type filter and evaluate to a match. -/
theorem c7_scan_counters (db : DB) :
    (scan_all_resources db).2.resources_scanned = (loadedResources db).length ∧
    (scan_all_resources db).2.rules_evaluated =
      (loadedResources db).length * (loadedRules db).length ∧
    (scan_all_resources db).2.findings_created =
      ((scanPairs (loadedResources db) (loadedRules db)).filter
        (fun p => pairMatches p.1 p.2)).length := by
  rw [scan_all_resources_spec]
  exact ⟨rfl, rfl, scanFindings_length _ _⟩

/-- C8: scanning twice with no intervening change to resources or
rules returns identical counters both times and leaves the findings
collection identical up to the store-assigned identifiers, because each
run clears the collection and regenerates it from the same loaded
data. -/
theorem c8_scan_idempotent (db : DB) :
    (scan_all_resources (scan_all_resources db).1).2 = (scan_all_resources db).2 ∧
    (scan_all_resources (scan_all_resources db).1).1.findings.map stripId =
      (scan_all_resources db).1.findings.map stripId := by
  constructor
  · simp only [scan_all_resources_spec, loadedResources, loadedRules]
  · simp only [scan_all_resources_spec, loadedResources, loadedRules, map_stripId_emit]

/-- The failing input for the region join: one `ec2` resource in
`us-east-1` and one universally applicable matching rule. -/
def c2db : DB :=
  { resources := [[("_id", Value.oid 7), ("name", Value.str "web"),
      ("resource_type", Value.str "ec2"), ("region", Value.str "us-east-1"),
      ("status", Value.str "running")]],
    rules := [[("_id", Value.oid 8), ("name", Value.str "running-check"),
      ("field", Value.str "status"), ("op", Value.str "eq"),
      ("value", Value.str "running")]],
    findings := [], nextId := 9 }

/-- C2, evaluated at the failing input: the scan stores the finding's
`resource_id` as the *stringified* resource id (`to_dict` runs before
`finding_data` is built), while the resources collection keys `_id` as
an ObjectId; the `$lookup` compares them by BSON equality, where a
string never equals an ObjectId, so even a finding whose resource still
exists — with region `us-east-1` — is reported under `"unknown"`. -/
theorem c2_region_join_failing_input :
    (scan_all_resources c2db).2.findings_created = 1 ∧
    (scan_all_resources c2db).1.findings.map (fun f => getS f "resource_id") =
      [Value.str (pyStr (Value.oid 7))] ∧
    (scan_all_resources c2db).1.resources.map (fun r => (getS r "_id", getS r "region")) =
      [(Value.oid 7, Value.str "us-east-1")] ∧
    byRegionOf (scan_all_resources c2db).1.findings (scan_all_resources c2db).1.resources =
      [(Value.str "unknown", 1)] ∧
    Finding_get_by_region (some (scan_all_resources c2db).1) =
      Except.ok (byRegionOf (scan_all_resources c2db).1.findings
        (scan_all_resources c2db).1.resources) := by
  refine ⟨by decide, by decide, by decide, by decide, rfl⟩

/-- C9: every repository operation invoked while the store adapter is
unavailable fails with the store-unavailable error (never an empty or
zero-count success), and that error is distinguishable from an empty
successful result. -/
theorem c9_unavailable_store_errors :
    (∀ d : Doc, Resource_create Option.none d = Except.error StoreError.unavailable) ∧
    (∀ ds : List Doc, Resource_bulk_create Option.none ds = Except.error StoreError.unavailable) ∧
    (∀ (filter : Doc) (skip limit : Nat) (sb so : String) (search : Option String),
      Resource_find_all Option.none filter skip limit sb so search =
        Except.error StoreError.unavailable) ∧
    (∀ rid : String, Resource_find_by_id Option.none rid = Except.error StoreError.unavailable) ∧
    (∀ (rid : String) (u : Doc),
      Resource_update Option.none rid u = Except.error StoreError.unavailable) ∧
    (∀ rid : String, Resource_delete Option.none rid = Except.error StoreError.unavailable) ∧
    (∀ f : Doc, Resource_bulk_delete Option.none f = Except.error StoreError.unavailable) ∧
    (∀ d : Doc, Rule_create Option.none d = Except.error StoreError.unavailable) ∧
    (∀ ds : List Doc, Rule_bulk_create Option.none ds = Except.error StoreError.unavailable) ∧
    (Rule_find_all Option.none = Except.error StoreError.unavailable) ∧
    (∀ rid : String, Rule_find_by_id Option.none rid = Except.error StoreError.unavailable) ∧
    (∀ (rid : String) (u : Doc),
      Rule_update Option.none rid u = Except.error StoreError.unavailable) ∧
    (∀ rid : String, Rule_delete Option.none rid = Except.error StoreError.unavailable) ∧
    (∀ f : Doc, Rule_bulk_delete Option.none f = Except.error StoreError.unavailable) ∧
    (∀ d : Doc, Finding_create Option.none d = Except.error StoreError.unavailable) ∧
    (Finding_find_all Option.none = Except.error StoreError.unavailable) ∧
    (Finding_clear_all Option.none = Except.error StoreError.unavailable) ∧
    (Finding_get_severity_summary Option.none = Except.error StoreError.unavailable) ∧
    (Finding_get_by_resource_type Option.none = Except.error StoreError.unavailable) ∧
    (Finding_get_by_region Option.none = Except.error StoreError.unavailable) :=
  ⟨fun _ => rfl, fun _ => rfl, fun _ _ _ _ _ _ => rfl, fun _ => rfl, fun _ _ => rfl,
    fun _ => rfl, fun _ => rfl, fun _ => rfl, fun _ => rfl, rfl, fun _ => rfl, fun _ _ => rfl,
    fun _ => rfl, fun _ => rfl, fun _ => rfl, rfl, rfl, rfl, rfl, rfl⟩

end Scanner
